import Mathlib

/-
Verification of the plot-viewer session manager and the live-share command
bridge of the vscode-R repository (src/plotViewer/index.ts and
src/liveShare/shareCommands.ts), via a shallow embedding of the relevant
state and operations.  Webview messaging, network fetches and timers are
modelled as explicit oracles / returned action values; the in-memory state
transitions follow the TypeScript source line by line.
-/

namespace VscR

/-- Shallow embedding of HttpgdPlot<string> (httpgdTypes): id, data (svg text),
width/height in pixels, zoom factor.  JS numbers carrying pixel sizes are
modelled as Int, the zoom factor as a rational. -/
structure HttpgdPlot where
  id : String
  data : String
  width : Int
  height : Int
  zoom : ℚ
deriving Repr, DecidableEq

/-- The state-relevant fields of class HttpgdViewer (src/plotViewer/index.ts):
plots, activePlot, hiddenPlots, view size, zoom, and the two display toggles.
`activePlot = none` embeds the JS value `undefined`. -/
structure ViewerState where
  plots : List HttpgdPlot
  activePlot : Option String
  hiddenPlots : List String
  viewWidth : Int
  viewHeight : Int
  zoom : ℚ
  stripStyles : Bool
  fullWindow : Bool
deriving Repr, DecidableEq

/-- JS Array.prototype.findIndex: first index satisfying the predicate, or -1. -/
def jsFindIndex (p : α → Bool) : List α → Int
  | [] => -1
  | a :: as =>
    if p a then 0
    else
      let r := jsFindIndex p as
      if r < 0 then -1 else r + 1

/-- HttpgdViewer.getIndex: `this.plots.findIndex((plt) => plt.id === id)`. -/
def getIndex (s : ViewerState) (id : String) : Int :=
  jsFindIndex (fun plt => plt.id = id) s.plots

/-- JS truthiness of an optional string: `undefined` and the empty string
are falsy.  Used for checks of the form `if (!id) return`. -/
def strTruthy : Option String → Bool
  | none => false
  | some x => x ≠ ""

/-- JS `a || b` on optional strings: falls through to b when a is undefined
or the empty string.  Used for `id || this.activePlot` patterns. -/
def jsOrStr (a b : Option String) : Option String :=
  if strTruthy a then a else b

/-- The getter HttpgdViewer.activeIndex: `if(!this.activePlot) return -1`
— the JS check is falsy for undefined and for the empty string alike — else
the findIndex of the active id in plots (-1 when not found). -/
def activeIndex (s : ViewerState) : Int :=
  if strTruthy s.activePlot then
    match s.activePlot with
    | some id => getIndex s id
    | none => -1
  else -1

/-- The setter HttpgdViewer.activeIndex: when plots is empty, unset activePlot;
otherwise clamp the index into [0, plots.length - 1] and set activePlot to the
id of the plot at that index. -/
def setActiveIndex (s : ViewerState) (ind : Int) : ViewerState :=
  if s.plots.length = 0 then
    { s with activePlot := none }
  else
    let i := min (max ind 0) ((s.plots.length : Int) - 1)
    { s with activePlot := (s.plots.get? i.toNat).map HttpgdPlot.id }

/-- HttpgdViewer.toggleStyle: `this.stripStyles = force ?? !this.stripStyles`
(the webview message it posts afterwards carries no state). -/
def toggleStyle (s : ViewerState) (force : Option Bool) : ViewerState :=
  { s with stripStyles := force.getD (!s.stripStyles) }

/-- HttpgdViewer.toggleFullWindow: `this.fullWindow = force ?? !this.fullWindow`. -/
def toggleFullWindow (s : ViewerState) (force : Option Bool) : ViewerState :=
  { s with fullWindow := force.getD (!s.fullWindow) }

/-- HttpgdViewer.hidePlot: resolve the id (`id ??= this.activePlot`, return on
falsy), remember the old active index, append the id to hiddenPlots, filter
plots by the updated hiddenPlots, and when the hidden id was the active plot,
reassign the remembered index through the clamping setter.  The webview
hide/focus messages carry no session state. -/
def hidePlotCore (s : ViewerState) (i : String) : ViewerState :=
  let tmpIndex := activeIndex s
  let hidden := s.hiddenPlots ++ [i]
  let s' := { s with
    hiddenPlots := hidden,
    plots := s.plots.filter (fun plt => plt.id ∉ hidden) }
  if s.activePlot = some i then
    setActiveIndex s' tmpIndex
  else
    s'

def hidePlot (s : ViewerState) (idArg : Option String) : ViewerState :=
  let id := match idArg with
    | some x => some x
    | none => s.activePlot
  if strTruthy id then
    match id with
    | none => s
    | some i => hidePlotCore s i
  else s

/-- HttpgdViewer.closePlot: resolve the id the same way and, when truthy,
hide the plot locally; the remote `api.removePlot` call does not touch the
in-memory session state. -/
def closePlot (s : ViewerState) (idArg : Option String) : ViewerState :=
  let id := match idArg with
    | some x => some x
    | none => s.activePlot
  if strTruthy id then hidePlot s id else s

/-- HttpgdViewer.getPlotContent, with the remote `api.getPlot` modelled by a
data oracle: the returned plot record carries the requested id, the fetched
payload, and the requested width/height/zoom. -/
def getPlotContent (fetchData : String → Int → Int → ℚ → String)
    (id : String) (width height : Int) (zoom : ℚ) : HttpgdPlot :=
  { id := id
    data := fetchData id width height zoom
    width := width
    height := height
    zoom := zoom }

/-- HttpgdViewer.refreshPlots, state part (the webview patch/append/focus
messages and the html rebuild carry no session state):
remember the old count, map the incoming responses to ids, drop hidden ids,
resolve each remaining id (keep the cached plot unless force is set, the plot
is missing locally, or it is the active plot — then fetch at the current view
size and zoom), and when the count changed set activePlot to the id of the
last plot of the new list (`this.plots[this.plots.length - 1]?.id`).
resolvePlot is the per-id body of the newPlotPromises map in refreshPlots:
keep the cached plot when one exists, it is not active, and force is false;
otherwise fetch afresh. -/
def resolvePlot (fetchData : String → Int → Int → ℚ → String)
    (s : ViewerState) (force : Bool) (id : String) : HttpgdPlot :=
  let plot := s.plots.find? (fun plt => plt.id = id)
  match plot with
  | some plt =>
    if force ∨ s.activePlot = some id then
      getPlotContent fetchData id s.viewWidth s.viewHeight s.zoom
    else
      plt
  | none => getPlotContent fetchData id s.viewWidth s.viewHeight s.zoom

def refreshPlots (fetchData : String → Int → Int → ℚ → String)
    (s : ViewerState) (incomingIds : List String) (force : Bool) : ViewerState :=
  let nPlots := s.plots.length
  let plotIds := incomingIds.filter (fun id => id ∉ s.hiddenPlots)
  let newPlots := plotIds.map (resolvePlot fetchData s force)
  let s' := { s with plots := newPlots }
  if s'.plots.length ≠ nPlots then
    { s' with activePlot := s'.plots.getLast?.map HttpgdPlot.id }
  else
    s'

/-- The index-update step of HttpgdViewer.nextPlot:
`this.activeIndex = last ? this.plots.length - 1 : this.activeIndex + 1`
(the subsequent focusPlot call is modelled separately). -/
def nextPlotIndexStep (s : ViewerState) (last : Bool) : ViewerState :=
  setActiveIndex s (if last then (s.plots.length : Int) - 1 else activeIndex s + 1)

/-- The index-update step of HttpgdViewer.prevPlot:
`this.activeIndex = first ? 0 : this.activeIndex - 1`. -/
def prevPlotIndexStep (s : ViewerState) (first : Bool) : ViewerState :=
  setActiveIndex s (if first then 0 else activeIndex s - 1)

/-- Outcome of HttpgdViewer.focusPlot: a TypeError fault (dereferencing an
undefined plot), a full refreshPlots call, or an in-place focus message. -/
inductive FocusOutcome where
  | fault
  | refresh (s : ViewerState)
  | focusMessage (s : ViewerState) (msgId : Option String)
deriving Repr, DecidableEq

/-- HttpgdViewer.focusPlot: `this.activePlot = id || this.activePlot`, then
read `this.plots[this.activeIndex]` — an out-of-range index yields undefined
and the subsequent `.height` access is a TypeError (fault).  Otherwise the
source compares the cached plot's height against viewHeight, its width
against viewHeight as well (sic, line 628), and its zoom against zoom; on any
difference it calls refreshPlots, else it posts a focus message for the
active plot id (_focusPlot returns silently on a falsy id). -/
def focusPlot (s : ViewerState) (idArg : Option String) : FocusOutcome :=
  let s' := { s with activePlot := jsOrStr idArg s.activePlot }
  let idx := activeIndex s'
  if idx < 0 then
    FocusOutcome.fault
  else
    match s'.plots.get? idx.toNat with
    | none => FocusOutcome.fault
    | some plt =>
      if plt.height ≠ s'.viewHeight ∨ plt.width ≠ s'.viewHeight ∨ plt.zoom ≠ s'.zoom then
        FocusOutcome.refresh s'
      else
        FocusOutcome.focusMessage s' (if strTruthy s'.activePlot then s'.activePlot else none)

/-- HttpgdViewer.nextPlot: index update then focusPlot with no argument. -/
def nextPlot (s : ViewerState) (last : Bool) : FocusOutcome :=
  focusPlot (nextPlotIndexStep s last) none

/-- HttpgdViewer.prevPlot: index update then focusPlot with no argument. -/
def prevPlot (s : ViewerState) (first : Bool) : FocusOutcome :=
  focusPlot (prevPlotIndexStep s first) none

/-- activePlot, when set, references a plot currently in plots. -/
def activeValid (s : ViewerState) : Prop :=
  ∀ a, s.activePlot = some a → a ∈ s.plots.map HttpgdPlot.id

instance (s : ViewerState) : Decidable (activeValid s) :=
  match h : s.activePlot with
  | none => isTrue (fun a ha => by rw [h] at ha; cases ha)
  | some a =>
    if hm : a ∈ s.plots.map HttpgdPlot.id then
      isTrue (fun b hb => by rw [h] at hb; cases hb; exact hm)
    else
      isFalse (fun f => hm (f a h))

/-- The active-index invariant of the spec: activeIndex is -1 exactly when
plots is empty, lies in [0, plots.length - 1] when plots is non-empty, and
activePlot (when set) references a member of plots. -/
def Inv (s : ViewerState) : Prop :=
  (s.plots = [] ↔ activeIndex s = -1)
  ∧ (s.plots ≠ [] → 0 ≤ activeIndex s ∧ activeIndex s ≤ (s.plots.length : Int) - 1)
  ∧ activeValid s

instance (s : ViewerState) : Decidable (Inv s) := by
  unfold Inv; infer_instance

/-- hiddenPlots is disjoint from the ids of the visible plots
(the spec invariant `hiddenPlotIds ∩ {p.id for p in plots} = ∅`). -/
def hiddenDisjoint (s : ViewerState) : Prop :=
  ∀ a ∈ s.hiddenPlots, a ∉ s.plots.map HttpgdPlot.id

instance (s : ViewerState) : Decidable (hiddenDisjoint s) := by
  unfold hiddenDisjoint
  exact List.decidableBAll _ _

/-- Every plot id is a non-empty string (httpgd server-assigned ids; the
program treats an empty-string id as unset, since `!""` is true in JS). -/
def plotIdsTruthy (s : ViewerState) : Prop :=
  ∀ plt ∈ s.plots, plt.id ≠ ""

instance (s : ViewerState) : Decidable (plotIdsTruthy s) := by
  unfold plotIdsTruthy
  exact List.decidableBAll _ _

lemma jsFindIndex_ge_neg_one (p : α → Bool) (l : List α) :
    -1 ≤ jsFindIndex p l := by
  induction l with
  | nil => simp [jsFindIndex]
  | cons a as ih =>
    simp only [jsFindIndex]
    split_ifs <;> omega

lemma jsFindIndex_lt_length (p : α → Bool) (l : List α) :
    jsFindIndex p l < l.length := by
  induction l with
  | nil => simp [jsFindIndex]
  | cons a as ih =>
    simp only [jsFindIndex, List.length_cons]
    split_ifs <;> omega

lemma jsFindIndex_nonneg (p : α → Bool) (l : List α)
    (h : ∃ a ∈ l, p a = true) : 0 ≤ jsFindIndex p l := by
  induction l with
  | nil => simp at h
  | cons a as ih =>
    simp only [jsFindIndex]
    rcases h with ⟨b, hb, hpb⟩
    rcases List.mem_cons.mp hb with rfl | hbs
    · simp [hpb]
    · split_ifs with h1 h2
      · omega
      · exact absurd (ih ⟨b, hbs, hpb⟩) (by omega)
      · omega

/-- A state whose activePlot is set to the non-empty id of a member plot
satisfies Inv. -/
lemma inv_of_mem (s : ViewerState) (a : String) (hane : a ≠ "")
    (ha : s.activePlot = some a) (hmem : a ∈ s.plots.map HttpgdPlot.id) :
    Inv s := by
  have hne : s.plots ≠ [] := by
    rcases List.mem_map.mp hmem with ⟨plt, hplt, _⟩
    exact List.ne_nil_of_mem hplt
  have hex : ∃ plt ∈ s.plots, (decide (plt.id = a)) = true := by
    rcases List.mem_map.mp hmem with ⟨plt, hplt, hid⟩
    exact ⟨plt, hplt, decide_eq_true hid⟩
  have hidx : activeIndex s = jsFindIndex (fun plt => plt.id = a) s.plots := by
    simp [activeIndex, getIndex, strTruthy, ha, hane]
  have h0 : 0 ≤ activeIndex s := by
    rw [hidx]; exact jsFindIndex_nonneg _ _ hex
  have hlt : activeIndex s < s.plots.length := by
    rw [hidx]; exact jsFindIndex_lt_length _ _
  refine ⟨⟨fun h => absurd h hne, fun h => absurd h (by omega)⟩, fun _ => ⟨h0, by omega⟩, ?_⟩
  intro b hb
  rw [ha] at hb
  cases hb
  exact hmem

/-- A state with empty plots and unset activePlot satisfies Inv. -/
lemma inv_none_empty (s : ViewerState)
    (h1 : s.activePlot = none) (h2 : s.plots = []) : Inv s := by
  have hidx : activeIndex s = -1 := by simp [activeIndex, strTruthy, h1]
  refine ⟨⟨fun _ => hidx, fun _ => h2⟩, fun h => absurd h2 h, ?_⟩
  intro a ha
  rw [h1] at ha
  cases ha

/-- The clamping activeIndex setter establishes Inv from any state and index,
provided the plot ids are non-empty (an empty id would be treated as unset
by the getter). -/
lemma setActiveIndex_inv (s : ViewerState) (ind : Int)
    (ht : plotIdsTruthy s) : Inv (setActiveIndex s ind) := by
  unfold setActiveIndex
  split_ifs with h
  · exact inv_none_empty _ rfl (List.length_eq_zero.mp h)
  · have hlen : 1 ≤ s.plots.length := by omega
    set i : Int := min (max ind 0) ((s.plots.length : Int) - 1) with hi
    have h0i : 0 ≤ i := by
      apply le_min
      · exact le_max_right _ _
      · omega
    have hub : i.toNat < s.plots.length := by
      have : i ≤ (s.plots.length : Int) - 1 := min_le_right _ _
      omega
    have hget : s.plots.get? i.toNat = some (s.plots.get ⟨i.toNat, hub⟩) :=
      List.get?_eq_get hub
    apply inv_of_mem _ ((s.plots.get ⟨i.toNat, hub⟩).id)
      (ht _ (List.get_mem _ _ _))
    · show (s.plots.get? i.toNat).map HttpgdPlot.id = _
      rw [hget]
      rfl
    · exact List.mem_map.mpr ⟨_, List.get_mem _ _ _, rfl⟩

/-- hidePlotCore preserves Inv, given the hidden/visible disjointness
invariant. -/
lemma hidePlotCore_inv (s : ViewerState) (i : String)
    (ht : plotIdsTruthy s) (hd : hiddenDisjoint s) (hinv : Inv s) :
    Inv (hidePlotCore s i) := by
  unfold hidePlotCore
  dsimp only
  by_cases hai : s.activePlot = some i
  · rw [if_pos hai]
    refine setActiveIndex_inv _ _ ?_
    intro plt hplt
    exact ht plt (List.mem_of_mem_filter hplt)
  · rw [if_neg hai]
    rcases hap : s.activePlot with _ | a
    · have hempty : s.plots = [] :=
        hinv.1.mpr (by simp [activeIndex, strTruthy, hap])
      refine inv_none_empty _ rfl ?_
      simp [hempty]
    · have hane : a ≠ i := fun h => hai (hap.trans (by rw [h]))
      have hmem : a ∈ s.plots.map HttpgdPlot.id := hinv.2.2 a hap
      rcases List.mem_map.mp hmem with ⟨plt, hplt, hpid⟩
      have hnh : a ∉ s.hiddenPlots := fun h => hd a h hmem
      refine inv_of_mem _ a (hpid ▸ ht plt hplt) rfl ?_
      refine List.mem_map.mpr ⟨plt, ?_, hpid⟩
      refine List.mem_filter.mpr ⟨hplt, ?_⟩
      simp only [decide_eq_true_eq]
      intro hc
      rcases List.mem_append.mp hc with h1 | h1
      · rw [hpid] at h1
        exact hnh h1
      · rw [hpid] at h1
        exact hane (List.mem_singleton.mp h1)

/-- hidePlot preserves Inv. -/
lemma hidePlot_inv (s : ViewerState) (idArg : Option String)
    (ht : plotIdsTruthy s) (hd : hiddenDisjoint s) (hinv : Inv s) :
    Inv (hidePlot s idArg) := by
  unfold hidePlot
  dsimp only
  rcases idArg with _ | x
  · rcases hap : s.activePlot with _ | a
    · simp only [strTruthy]
      simpa using hinv
    · by_cases he : a = ""
      · simp [strTruthy, he]
        exact hinv
      · have htr : strTruthy (some a) = true := by simp [strTruthy, he]
        rw [htr]
        simpa using hidePlotCore_inv s a ht hd hinv
  · by_cases he : x = ""
    · simp [strTruthy, he]
      exact hinv
    · have htr : strTruthy (some x) = true := by simp [strTruthy, he]
      rw [htr]
      simpa using hidePlotCore_inv s x ht hd hinv

/-- closePlot preserves Inv (its local effect is hidePlot). -/
lemma closePlot_inv (s : ViewerState) (idArg : Option String)
    (ht : plotIdsTruthy s) (hd : hiddenDisjoint s) (hinv : Inv s) :
    Inv (closePlot s idArg) := by
  unfold closePlot
  dsimp only
  split_ifs with h
  · exact hidePlot_inv s _ ht hd hinv
  · exact hinv

/-- The plot produced for a target id carries that id. -/
lemma resolvePlot_id (f : String → Int → Int → ℚ → String)
    (s : ViewerState) (force : Bool) (id : String) :
    (resolvePlot f s force id).id = id := by
  unfold resolvePlot
  dsimp only
  cases hfind : s.plots.find? (fun plt => plt.id = id) with
  | none => rfl
  | some plt =>
    split_ifs with h
    · rfl
    · have := List.find?_some hfind
      simpa using this

/-- Mapping the resolver over an id list and projecting ids is the identity. -/
lemma map_resolvePlot_ids (f : String → Int → Int → ℚ → String)
    (s : ViewerState) (force : Bool) (l : List String) :
    (l.map (resolvePlot f s force)).map HttpgdPlot.id = l := by
  rw [List.map_map]
  have : (HttpgdPlot.id ∘ resolvePlot f s force) = fun id => id := by
    funext id
    simp [Function.comp, resolvePlot_id]
  rw [this, List.map_id']

/-- refreshPlots leaves exactly the incoming ids minus the hidden ids, in
order, as the ids of the resulting plot list. -/
lemma refreshPlots_ids (f : String → Int → Int → ℚ → String)
    (s : ViewerState) (inc : List String) (force : Bool) :
    (refreshPlots f s inc force).plots.map HttpgdPlot.id
      = inc.filter (fun id => id ∉ s.hiddenPlots) := by
  unfold refreshPlots
  dsimp only
  split_ifs with h
  · exact map_resolvePlot_ids f s force _
  · exact map_resolvePlot_ids f s force _

/-- refreshPlots re-establishes Inv whenever the plot count changes, and
preserves it when the surviving id list still contains the active plot id. -/
lemma refreshPlots_inv (f : String → Int → Int → ℚ → String)
    (s : ViewerState) (inc : List String) (force : Bool)
    (hinc : ∀ id ∈ inc, id ≠ "")
    (hinv : Inv s)
    (hcond : (inc.filter (fun id => id ∉ s.hiddenPlots)).length ≠ s.plots.length
      ∨ ∀ a, s.activePlot = some a → a ∈ inc.filter (fun id => id ∉ s.hiddenPlots)) :
    Inv (refreshPlots f s inc force) := by
  unfold refreshPlots
  dsimp only
  have hids := map_resolvePlot_ids f s force (inc.filter (fun id => id ∉ s.hiddenPlots))
  split_ifs with hch
  · -- count changed: activePlot snaps to the last plot
    by_cases hnil : (inc.filter (fun id => id ∉ s.hiddenPlots)).map (resolvePlot f s force) = []
    · rw [hnil]
      exact inv_none_empty _ rfl rfl
    · have hx : ∀ p ∈ (inc.filter (fun id => id ∉ s.hiddenPlots)).map (resolvePlot f s force),
          p.id ∈ inc.filter (fun id => id ∉ s.hiddenPlots) := by
        intro p hp
        rw [← hids]
        exact List.mem_map.mpr ⟨p, hp, rfl⟩
      have hmemid := hx _ (List.getLast_mem hnil)
      refine inv_of_mem _ (((inc.filter (fun id => id ∉ s.hiddenPlots)).map (resolvePlot f s force)).getLast hnil).id
        (hinc _ (List.mem_of_mem_filter hmemid)) ?_ ?_
      · show (((inc.filter (fun id => id ∉ s.hiddenPlots)).map (resolvePlot f s force)).getLast?).map HttpgdPlot.id = _
        rw [List.getLast?_eq_getLast_of_ne_nil hnil]
        rfl
      · exact List.mem_map.mpr ⟨_, List.getLast_mem hnil, rfl⟩
  · -- no count change: activePlot survives
    have heq : ((inc.filter (fun id => id ∉ s.hiddenPlots)).map (resolvePlot f s force)).length
        = s.plots.length := by
      by_contra hne
      exact hch hne
    rcases hcond with hne | hsurv
    · rw [List.length_map] at heq
      exact absurd heq hne
    · rcases hap : s.activePlot with _ | a
      · have hpempty : s.plots = [] :=
          hinv.1.mpr (by simp [activeIndex, strTruthy, hap])
        have hlen0 : ((inc.filter (fun id => id ∉ s.hiddenPlots)).map (resolvePlot f s force)).length = 0 := by
          rw [heq, hpempty]
          rfl
        have hnp := List.length_eq_zero.mp hlen0
        refine inv_none_empty _ rfl ?_
        exact hnp
      · have hmemL : a ∈ inc.filter (fun id => id ∉ s.hiddenPlots) := hsurv a hap
        have hmem : a ∈ ((inc.filter (fun id => id ∉ s.hiddenPlots)).map (resolvePlot f s force)).map HttpgdPlot.id := by
          rw [hids]
          exact hmemL
        exact inv_of_mem _ a (hinc a (List.mem_of_mem_filter hmemL)) rfl hmem

/-- The plots field of the refresh result, independent of the count check. -/
lemma refreshPlots_plots (f : String → Int → Int → ℚ → String)
    (s : ViewerState) (inc : List String) (force : Bool) :
    (refreshPlots f s inc force).plots
      = (inc.filter (fun id => id ∉ s.hiddenPlots)).map (resolvePlot f s force) := by
  unfold refreshPlots
  dsimp only
  split_ifs <;> rfl

/-- The source's fetch condition (force, or no cached plot, or active) agrees
with the spec's keep condition (cached, not active, and force unset). -/
lemma resolvePlot_spec (f : String → Int → Int → ℚ → String)
    (s : ViewerState) (force : Bool) :
    resolvePlot f s force = (fun id =>
      match s.plots.find? (fun plt => plt.id = id) with
      | some plt =>
        if ¬ force = true ∧ s.activePlot ≠ some id then plt
        else getPlotContent f id s.viewWidth s.viewHeight s.zoom
      | none => getPlotContent f id s.viewWidth s.viewHeight s.zoom) := by
  funext id
  unfold resolvePlot
  dsimp only
  cases s.plots.find? (fun plt => plt.id = id) with
  | none => rfl
  | some plt =>
    by_cases hf : force = true
    · simp [hf]
    · by_cases ha : s.activePlot = some id
      · simp [hf, ha]
      · simp [hf, ha]

/-- A sample remote fetch oracle used for concrete evaluations. -/
def fetchConst : String → Int → Int → ℚ → String := fun _ _ _ _ => "svg"

/-- A session holding one plot "1", which is active and rendered at the
current view size and zoom. -/
def sOnePlot : ViewerState :=
  { plots := [{ id := "1", data := "d1", width := 800, height := 600, zoom := 1 }]
    activePlot := some "1"
    hiddenPlots := []
    viewWidth := 800
    viewHeight := 600
    zoom := 1
    stripStyles := true
    fullWindow := false }

/-- Claim C1, counterexample: a refresh whose incoming id list has the same
length as the current plot list but no longer contains the active id leaves
activePlot referencing a plot that is not in plots (activeIndex = -1 with
plots non-empty), violating the claimed invariant. -/
theorem c1_counterexample :
    ¬ Inv (refreshPlots fetchConst sOnePlot ["2"] false) := by
  decide

/-- Claim C1 (amended): for sessions whose plot ids are non-empty strings
(as the server assigns them; the getter treats an empty id as unset, since
`!this.activePlot` is true for ""), the active-index invariant (activeIndex
in [0, len-1] for non-empty plots, -1 exactly on empty plots, activePlot a
member of plots) is preserved by hide and close (given the hidden/visible
disjointness invariant), is established by the navigation index updates of
nextPlot and prevPlot, and is preserved by a refresh with non-empty incoming
ids whenever the plot count changes or the incoming-minus-hidden id list
still contains the active id; it is not preserved by a refresh that keeps
the count while dropping the active id (see the counterexample). -/
theorem c1_active_index_invariant :
    (∀ s idArg, plotIdsTruthy s → hiddenDisjoint s → Inv s → Inv (hidePlot s idArg))
    ∧ (∀ s idArg, plotIdsTruthy s → hiddenDisjoint s → Inv s → Inv (closePlot s idArg))
    ∧ (∀ s last, plotIdsTruthy s → Inv (nextPlotIndexStep s last))
    ∧ (∀ s first, plotIdsTruthy s → Inv (prevPlotIndexStep s first))
    ∧ (∀ f s inc force, (∀ id ∈ inc, id ≠ "") → Inv s →
        ((inc.filter (fun id => id ∉ s.hiddenPlots)).length ≠ s.plots.length
          ∨ ∀ a, s.activePlot = some a → a ∈ inc.filter (fun id => id ∉ s.hiddenPlots)) →
        Inv (refreshPlots f s inc force)) :=
  ⟨hidePlot_inv, closePlot_inv,
   fun s _ ht => setActiveIndex_inv s _ ht,
   fun s _ ht => setActiveIndex_inv s _ ht,
   refreshPlots_inv⟩

/-- Witness for C1 at concrete inputs. -/
theorem c1_active_index_invariant_witness :
    Inv (hidePlot sOnePlot (some "1"))
    ∧ Inv (nextPlotIndexStep sOnePlot true)
    ∧ Inv (refreshPlots fetchConst sOnePlot ["1", "2"] false) :=
  ⟨c1_active_index_invariant.1 sOnePlot (some "1") (by decide) (by decide) (by decide),
   c1_active_index_invariant.2.2.1 sOnePlot true (by decide),
   c1_active_index_invariant.2.2.2.2 fetchConst sOnePlot ["1", "2"] false
     (by decide) (by decide) (Or.inl (by decide))⟩

/-- Claim C2: a refresh with incoming id list L yields exactly L minus the
hidden ids, in order; a target id keeps its cached plot exactly when a
matching plot exists locally, it is not the active plot, and force is false,
and is otherwise fetched fresh at the current view size and zoom; and when
the resulting count differs from the previous count, the active plot becomes
the last plot of the new list. -/
theorem c2_refresh_protocol (f : String → Int → Int → ℚ → String)
    (s : ViewerState) (inc : List String) (force : Bool) :
    ((refreshPlots f s inc force).plots.map HttpgdPlot.id
      = inc.filter (fun id => id ∉ s.hiddenPlots))
    ∧ ((refreshPlots f s inc force).plots
        = (inc.filter (fun id => id ∉ s.hiddenPlots)).map (fun id =>
            match s.plots.find? (fun plt => plt.id = id) with
            | some plt =>
              if ¬ force = true ∧ s.activePlot ≠ some id then plt
              else getPlotContent f id s.viewWidth s.viewHeight s.zoom
            | none => getPlotContent f id s.viewWidth s.viewHeight s.zoom))
    ∧ ((refreshPlots f s inc force).plots.length ≠ s.plots.length →
        (refreshPlots f s inc force).activePlot
          = (refreshPlots f s inc force).plots.getLast?.map HttpgdPlot.id) := by
  refine ⟨refreshPlots_ids f s inc force, ?_, ?_⟩
  · rw [refreshPlots_plots, resolvePlot_spec]
  · unfold refreshPlots
    dsimp only
    split_ifs with h
    · intro _
      rfl
    · intro hc
      exact absurd hc h

/-- Witness for C2 at concrete inputs: a refresh growing the plot count from
one to two makes plot "2" active. -/
theorem c2_refresh_protocol_witness :
    (refreshPlots fetchConst sOnePlot ["1", "2"] false).activePlot = some "2" := by
  have h := (c2_refresh_protocol fetchConst sOnePlot ["1", "2"] false).2.2 (by decide)
  rw [h]
  decide

/-- Outcome of HttpgdViewer.exportPlot when id, renderer and file are all
supplied (no picker prompts run): either the no-plot warning, or a fetch of
`{id: ..., renderer: ...}` piped to the chosen file. -/
inductive ExportOutcome where
  | warned
  | exported (fetchedId : Option String) (rendererId : String) (outFile : String)
deriving Repr, DecidableEq

/-- HttpgdViewer.exportPlot, for calls where id, rendererId and outFile are
all supplied: resolve the target id as
`id ||= this.activePlot || this.plots[this.plots.length - 1]?.id`, warn and
return when no plot with the resolved id exists, and otherwise request
`this.api.getPlot({id: this.activePlot, renderer: rendererId})` (the source
passes activePlot, not the resolved id) and pipe the response to outFile.
The in-memory viewer state is returned unchanged. -/
def exportPlot (s : ViewerState) (idArg : Option String)
    (rendererId : String) (outFile : String) : ExportOutcome × ViewerState :=
  let id := jsOrStr idArg (jsOrStr s.activePlot (s.plots.getLast?.map HttpgdPlot.id))
  match s.plots.find? (fun plt => some plt.id = id) with
  | none => (ExportOutcome.warned, s)
  | some _ => (ExportOutcome.exported s.activePlot rendererId outFile, s)

/-- A session with no plots at all. -/
def sEmpty : ViewerState :=
  { plots := []
    activePlot := none
    hiddenPlots := []
    viewWidth := 800
    viewHeight := 600
    zoom := 1
    stripStyles := true
    fullWindow := false }

/-- A session whose activePlot id "x" is no longer a member of plots. -/
def sStale : ViewerState := { sOnePlot with activePlot := some "x" }

/-- A session with two plots "1" and "2", plot "1" active, both rendered
at the current view size and zoom. -/
def sTwoPlots : ViewerState :=
  { sOnePlot with plots :=
      [{ id := "1", data := "d1", width := 800, height := 600, zoom := 1 },
       { id := "2", data := "d2", width := 800, height := 600, zoom := 1 }] }

/-- Claim C3: on an empty plot list, or when activePlot no longer references
a member of plots, focusPlot/nextPlot/prevPlot read
`this.plots[this.activeIndex]` at index -1 and dereference undefined — a
TypeError fault, not the safe no-op the claim requires. -/
theorem c3_navigation_faults :
    focusPlot sEmpty none = FocusOutcome.fault
    ∧ nextPlot sEmpty false = FocusOutcome.fault
    ∧ prevPlot sEmpty false = FocusOutcome.fault
    ∧ focusPlot sStale none = FocusOutcome.fault := by
  decide

/-- Claim C5: with plots "1" and "2" and plot "1" active, exporting plot "2"
streams the render of plot "1" — the source fetches `this.activePlot`, not
the resolved target id — while the session state is left unchanged. -/
theorem c5_export_fetches_active_plot :
    exportPlot sTwoPlots (some "2") "png" "out.png"
      = (ExportOutcome.exported (some "1") "png" "out.png", sTwoPlots)
    ∧ (exportPlot sTwoPlots (some "2") "png" "out.png").1
      ≠ ExportOutcome.exported (some "2") "png" "out.png" := by
  decide

/-- Claim C7: with the active plot's cached width, height and zoom all equal
to the session's current view width, view height and zoom, focusPlot still
triggers a full refresh instead of an in-place focus, because the source
compares the cached width against viewHeight (line 628). -/
theorem c7_navigation_stale_check :
    focusPlot sOnePlot none = FocusOutcome.refresh sOnePlot
    ∧ (∀ plt ∈ sOnePlot.plots,
        plt.width = sOnePlot.viewWidth
        ∧ plt.height = sOnePlot.viewHeight
        ∧ plt.zoom = sOnePlot.zoom)
    ∧ sOnePlot.activePlot = some "1"
    ∧ sOnePlot.plots.map HttpgdPlot.id = ["1"] := by
  decide

/-- A viewer object as tracked by HttpgdManager: identity (allocation order)
plus its connection host. -/
structure Viewer where
  vid : Nat
  host : String
deriving Repr, DecidableEq

/-- The registry state of HttpgdManager: the MRU list `viewers`, the
per-owner buckets `recentlyActiveViewers` (an association list keyed by
pid), and an allocation counter standing in for object identity. -/
structure ManagerState where
  viewers : List Viewer
  recentlyActiveViewers : List (String × List Viewer)
  nextId : Nat
deriving Repr, DecidableEq

/-- `this.recentlyActiveViewers.get(pid) ?? []`. -/
def lookupPid (m : List (String × List Viewer)) (pid : String) : List Viewer :=
  match m.find? (fun e => e.1 = pid) with
  | some e => e.2
  | none => []

/-- `this.recentlyActiveViewers.set(pid, viewers)`. -/
def setPid (m : List (String × List Viewer)) (pid : String)
    (bucket : List Viewer) : List (String × List Viewer) :=
  match m.find? (fun e => e.1 = pid) with
  | some _ => m.map (fun e => if e.1 = pid then (pid, bucket) else e)
  | none => (pid, bucket) :: m

/-- HttpgdManager.registerActiveViewer: splice the viewer out of the MRU
list when present and unshift it to the front. -/
def registerActiveViewer (viewer : Viewer) (viewers : List Viewer) : List Viewer :=
  viewer :: viewers.erase viewer

/-- HttpgdManager.showViewer, registry part.  Branch one: a viewer for this
host already sits in the pid's bucket — splice it out of the MRU list when
present, unshift it, and reveal it (viewer.show registers it again via
registerActiveViewer).  Branch two: a viewer for this host exists in the MRU
list under some other owner — same splice/unshift/show treatment, and the
viewer is added to this pid's bucket when absent.  Branch three: neither
exists — construct a fresh viewer and unshift it onto the pid's bucket only;
the source never inserts it into `this.viewers` and never calls show here.
Finally the bucket is stored back under pid. -/
def showViewer (s : ManagerState) (host pid : String) : ManagerState :=
  let viewers := lookupPid s.recentlyActiveViewers pid
  match viewers.find? (fun v => v.host = host) with
  | some v =>
    let vs := registerActiveViewer v (v :: s.viewers.erase v)
    { s with
      viewers := vs
      recentlyActiveViewers := setPid s.recentlyActiveViewers pid viewers }
  | none =>
    match s.viewers.find? (fun v => v.host = host) with
    | some v =>
      let vs := registerActiveViewer v (v :: s.viewers.erase v)
      let bucket := if v ∈ viewers then viewers else v :: viewers
      { s with
        viewers := vs
        recentlyActiveViewers := setPid s.recentlyActiveViewers pid bucket }
    | none =>
      let v : Viewer := { vid := s.nextId, host := host }
      { s with
        recentlyActiveViewers := setPid s.recentlyActiveViewers pid (v :: viewers)
        nextId := s.nextId + 1 }

/-- The manager state at construction: no viewers, no buckets. -/
def emptyManager : ManagerState :=
  { viewers := [], recentlyActiveViewers := [], nextId := 0 }

/-- Claim C4, counterexample: after the first show of a fresh host the new
session sits only in the owner bucket; the registry's MRU session list is
still empty, so the session is not at the MRU front after that call. -/
theorem c4_counterexample :
    (showViewer emptyManager "localhost:8000" "123").viewers = []
    ∧ lookupPid (showViewer emptyManager "localhost:8000" "123").recentlyActiveViewers "123"
        = [{ vid := 0, host := "localhost:8000" }] := by
  decide

/-- Claim C4 (amended): showing the same host twice under the same owner
creates the session exactly once — after each call the owner bucket holds
just that session at its front, and the host is unique there; the MRU
viewers list does not yet contain the session after the first call (a fresh
viewer is only bucketed, not registered) and holds it exactly once, at MRU
front, after the second call. -/
theorem c4_show_same_host_twice (host pid : String) :
    (showViewer emptyManager host pid).viewers = []
    ∧ lookupPid (showViewer emptyManager host pid).recentlyActiveViewers pid
        = [{ vid := 0, host := host }]
    ∧ (showViewer (showViewer emptyManager host pid) host pid).viewers
        = [{ vid := 0, host := host }]
    ∧ lookupPid (showViewer (showViewer emptyManager host pid) host pid).recentlyActiveViewers pid
        = [{ vid := 0, host := host }]
    ∧ ((showViewer (showViewer emptyManager host pid) host pid).viewers.map Viewer.host).count host = 1 := by
  have h1 : showViewer emptyManager host pid
      = { viewers := [],
          recentlyActiveViewers := [(pid, [{ vid := 0, host := host }])],
          nextId := 1 } := by
    simp [showViewer, emptyManager, lookupPid, setPid]
  have h2 : showViewer
        ({ viewers := [],
           recentlyActiveViewers := [(pid, [{ vid := 0, host := host }])],
           nextId := 1 } : ManagerState) host pid
      = { viewers := [{ vid := 0, host := host }],
          recentlyActiveViewers := [(pid, [{ vid := 0, host := host }])],
          nextId := 1 } := by
    simp [showViewer, lookupPid, setPid, registerActiveViewer, List.find?]
  rw [h1, h2]
  refine ⟨rfl, ?_, rfl, ?_, ?_⟩
  · simp [lookupPid, List.find?]
  · simp [lookupPid, List.find?]
  · simp

/-- The timing-relevant options passed to the HttpgdViewer constructor
(HttpgdViewerOptions fields; HttpgdManager.showViewer fills both from
configuration). -/
structure ViewerTimingOptions where
  refreshTimeoutLength : Option Nat
  resizeTimeoutLength : Option Nat
deriving Repr, DecidableEq

/-- The constructor wiring of the resize window (line 559 of the source):
`this.resizeTimeoutLength = options.refreshTimeoutLength ?? this.resizeTimeoutLength`,
against the field default 1300.  Note the right-hand side reads the
refresh option, not the resize option. -/
def viewerResizeTimeoutLength (options : ViewerTimingOptions) : Nat :=
  options.refreshTimeoutLength.getD 1300

/-- The constructor wiring of the refresh window (line 560):
`this.refreshTimeoutLength = options.refreshTimeoutLength ?? this.refreshTimeoutLength`,
against the field default 10. -/
def viewerRefreshTimeoutLength (options : ViewerTimingOptions) : Nat :=
  options.refreshTimeoutLength.getD 10

/-- The option values HttpgdManager.showViewer passes under default
configuration: `plot.timing.refreshInterval` defaults to 10 and
`plot.timing.resizeInterval` defaults to 100 (lines 116-117). -/
def managerDefaultOptions : ViewerTimingOptions :=
  { refreshTimeoutLength := some 10, resizeTimeoutLength := some 100 }

/-- The throttle-relevant state of handleResize: view size, whether a
resize timer is pending, and the window length. -/
structure ResizeState where
  viewHeight : Int
  viewWidth : Int
  resizeTimeoutPending : Bool
  resizeTimeoutLength : Nat
deriving Repr, DecidableEq

/-- What a handleResize call does beyond storing the view size. -/
inductive ResizeAction where
  | immediate
  | scheduled
  | coalesced
deriving Repr, DecidableEq

/-- HttpgdViewer.handleResize: store the new view size; when the resize is
user-triggered or the window length is 0, clear any pending timer and
re-render immediately; otherwise start the throttle timer unless one is
already pending. -/
def handleResize (s : ResizeState) (height width : Int)
    (userTriggered : Bool) : ResizeState × ResizeAction :=
  let s := { s with viewHeight := height, viewWidth := width }
  if userTriggered ∨ s.resizeTimeoutLength = 0 then
    ({ s with resizeTimeoutPending := false }, ResizeAction.immediate)
  else if ¬ s.resizeTimeoutPending then
    ({ s with resizeTimeoutPending := true }, ResizeAction.scheduled)
  else
    (s, ResizeAction.coalesced)

/-- Claim C8: a user-triggered resize (or a zero window) cancels any pending
timer and re-renders immediately, and an ambient resize is throttled — but
the throttle window a viewer gets under default configuration is 10 (the
refresh interval, through the constructor's options.refreshTimeoutLength
read), not the claimed ~1.3s default 1300 and not the configured resize
interval 100; the 1300 default survives only when no refresh option is
passed. -/
theorem c8_resize_throttle_wiring :
    viewerResizeTimeoutLength managerDefaultOptions = 10
    ∧ viewerResizeTimeoutLength managerDefaultOptions ≠ 1300
    ∧ viewerResizeTimeoutLength managerDefaultOptions ≠ 100
    ∧ viewerResizeTimeoutLength { refreshTimeoutLength := none, resizeTimeoutLength := none } = 1300
    ∧ handleResize { viewHeight := 600, viewWidth := 800, resizeTimeoutPending := true, resizeTimeoutLength := 10 } 700 900 true
        = ({ viewHeight := 700, viewWidth := 900, resizeTimeoutPending := false, resizeTimeoutLength := 10 }, ResizeAction.immediate)
    ∧ (handleResize { viewHeight := 600, viewWidth := 800, resizeTimeoutPending := true, resizeTimeoutLength := 0 } 700 900 false).2
        = ResizeAction.immediate
    ∧ (handleResize { viewHeight := 600, viewWidth := 800, resizeTimeoutPending := false, resizeTimeoutLength := 10 } 700 900 false).2
        = ResizeAction.scheduled
    ∧ (handleResize { viewHeight := 600, viewWidth := 800, resizeTimeoutPending := true, resizeTimeoutLength := 10 } 700 900 false).2
        = ResizeAction.coalesced := by
  decide

/-- A JS value as far as the ShareBridge argument plumbing inspects it:
strings, booleans, numbers, null, plain objects (their property names), and
arrays. -/
inductive Value where
  | vstr (s : String)
  | vbool (b : Bool)
  | vnum (n : Int)
  | vnull
  | vobj (fields : List String)
  | varr (elems : List Value)

/-- `Array.isArray(args) ? args : [args]` (shareCommands.ts line 32). -/
def toArgList (v : Value) : List Value :=
  match v with
  | Value.varr l => l
  | v => [v]

/-- The duck-typing check of shareCommands.ts line 34: the first element is
truthy, of typeof 'object', and carries both a 'connection' and a 'session'
property.  null has typeof 'object' but is falsy; arrays are objects but
carry neither property. -/
def hasTransportContext (v : Value) : Bool :=
  match v with
  | Value.vobj fields => fields.contains "connection" && fields.contains "session"
  | _ => false

/-- normalizeRequestArgs: wrap a non-array argument, then drop the first
element exactly when it is a transport-context object. -/
def normalizeRequestArgs (args : Value) : List Value :=
  let list := toArgList args
  match list.head? with
  | some first => if hasTransportContext first then list.tail else list
  | none => list

/-- The request/notify callbacks of the Commands table (the Callback enum of
shareCommands.ts). -/
inductive HandlerId where
  | requestAttachGuest
  | requestRunTextInTerm
  | getHelpFileContent
  | requestDataViewRows
  | getFileContent
  | notifyRequestUpdate
  | notifyWorkspaceUpdate
  | notifyPlotUpdate
  | notifyGuestPlotManager
  | orderDetach
  | notifyMessage
deriving Repr, DecidableEq

/-- Which handler bodies pass their arguments through normalizeRequestArgs.
In the source only the four argument-extracting host request handlers do;
RequestAttachGuest ignores its arguments, and every guest notify handler
indexes args directly. -/
def handlerUsesNormalize : HandlerId → Bool
  | HandlerId.requestRunTextInTerm => true
  | HandlerId.getHelpFileContent => true
  | HandlerId.requestDataViewRows => true
  | HandlerId.getFileContent => true
  | _ => false

/-- The argument list a handler body actually extracts from: the normalized
list for the four normalizing host handlers, the raw list for the rest. -/
def handlerArgs (h : HandlerId) (args : Value) : List Value :=
  if handlerUsesNormalize h then normalizeRequestArgs args else toArgList args

/-- A transport-context prefix object as detected by the duck-typing check. -/
def ctxVal : Value := Value.vobj ["connection", "session"]

/-- Claim C9, counterexample: the guest NotifyPlotUpdate handler does not
strip a transport-context prefix — it reads args[0], the context object,
rather than the real first argument — so the normalization does not apply
to every handler. -/
theorem c9_counterexample :
    hasTransportContext ctxVal = true
    ∧ handlerArgs HandlerId.notifyPlotUpdate (Value.varr [ctxVal, Value.vstr "p.svg"])
        = [ctxVal, Value.vstr "p.svg"]
    ∧ handlerArgs HandlerId.notifyPlotUpdate (Value.varr [ctxVal, Value.vstr "p.svg"])
        ≠ [Value.vstr "p.svg"] := by
  refine ⟨rfl, rfl, ?_⟩
  intro h
  have hl := congrArg List.length h
  simp [handlerArgs, handlerUsesNormalize, toArgList] at hl

/-- Claim C9 (amended): for every argument list whose first element is an
object carrying both transport-context field names, the four
argument-extracting host request handlers strip that prefix before
extracting arguments, while the remaining handlers use the list unchanged;
and when the first element is not a transport-context object every handler
uses the list unchanged. -/
theorem c9_argument_normalization (ctx : Value) (rest : List Value)
    (hctx : hasTransportContext ctx = true) :
    (∀ h, handlerUsesNormalize h = true →
      handlerArgs h (Value.varr (ctx :: rest)) = rest)
    ∧ (∀ h, handlerUsesNormalize h = false →
      handlerArgs h (Value.varr (ctx :: rest)) = ctx :: rest)
    ∧ (∀ h (l : List Value), (∀ f, l.head? = some f → hasTransportContext f = false) →
      handlerArgs h (Value.varr l) = l) := by
  refine ⟨?_, ?_, ?_⟩
  · intro h hn
    simp [handlerArgs, hn, normalizeRequestArgs, toArgList, hctx]
  · intro h hn
    simp [handlerArgs, hn, toArgList]
  · intro h l hl
    unfold handlerArgs normalizeRequestArgs toArgList
    dsimp only
    split_ifs with hn
    · cases hl2 : l.head? with
      | none =>
        cases l with
        | nil => rfl
        | cons a as => cases hl2
      | some f =>
        have hf := hl f hl2
        cases l with
        | nil => cases hl2
        | cons a as =>
          simp only [List.head?_cons, Option.some.injEq] at hl2
          subst hl2
          simp [hf]
    · rfl

/-- Witness for C9 at concrete inputs. -/
theorem c9_argument_normalization_witness :
    handlerArgs HandlerId.getFileContent (Value.varr [ctxVal, Value.vstr "f.txt"])
      = [Value.vstr "f.txt"]
    ∧ handlerArgs HandlerId.notifyMessage (Value.varr [ctxVal, Value.vstr "m"])
      = [ctxVal, Value.vstr "m"]
    ∧ handlerArgs HandlerId.requestRunTextInTerm (Value.varr [Value.vstr "x <- 1"])
      = [Value.vstr "x <- 1"] :=
  ⟨(c9_argument_normalization ctxVal [Value.vstr "f.txt"] (by decide)).1
      HandlerId.getFileContent rfl,
   (c9_argument_normalization ctxVal [Value.vstr "m"] (by decide)).2.1
      HandlerId.notifyMessage rfl,
   (c9_argument_normalization ctxVal [] (by decide)).2.2
      HandlerId.requestRunTextInTerm [Value.vstr "x <- 1"] (by decide)⟩

/-- Claim C10: toggleStyle(b) sets stripStyles to exactly b and
toggleFullWindow(b) sets fullWindow to exactly b, independent of prior state;
with no argument each negates its flag, so two no-argument calls restore the
original value. -/
theorem c10_toggle_flags (s : ViewerState) (b : Bool) :
    (toggleStyle s (some b)).stripStyles = b
    ∧ (toggleFullWindow s (some b)).fullWindow = b
    ∧ (toggleStyle (toggleStyle s none) none).stripStyles = s.stripStyles
    ∧ (toggleFullWindow (toggleFullWindow s none) none).fullWindow = s.fullWindow
    ∧ (toggleStyle s (some b)).fullWindow = s.fullWindow
    ∧ (toggleFullWindow s (some b)).stripStyles = s.stripStyles := by
  refine ⟨rfl, rfl, ?_, ?_, rfl, rfl⟩
  · simp [toggleStyle]
  · simp [toggleFullWindow]

end VscR
